import Mathlib

/-
Verification development for the multi-sheet welding-signal dashboard.
The definitions below are a shallow embedding of the data pipeline of the
repository (sheet loading, timestamp normalization, concatenation, dropna,
fillna, derived columns, per-sheet aggregates, rolling statistics and the
lagged cross-correlation), translated from the Python source.  Missing
values (NaN) are modelled as Option, numeric cell values as rationals.
-/

namespace Dashboard

/-- Raw value found in the timestamp column of one spreadsheet row.
The constructors mirror the branches of format_excel_time: a missing cell,
a datetime-like value carrying wall-clock fields, a time-of-day value,
a numeric day fraction, and any other value together with the result of
attempting to parse it as a datetime (and its literal string form). -/
inductive RawCell where
  | null : RawCell
  | dt (h m : Nat) : RawCell
  | tod (h m : Nat) : RawCell
  | num (q : ℚ) : RawCell
  | txt (parsed : Option (Nat × Nat)) (lit : String) : RawCell
deriving DecidableEq

/-- Zero padding to two digits for a natural clock field, as strftime does. -/
def pad2 (n : Nat) : String :=
  if n < 10 then "0" ++ toString n else toString n

/-- Zero padding as the Python format spec 02 does for an integer. -/
def pad2i (n : Int) : String :=
  if 0 ≤ n ∧ n < 10 then "0" ++ toString n else toString n

/-- Round-half-to-even on rationals, the semantics of the Python round builtin. -/
def roundHalfEven (q : ℚ) : Int :=
  let f : Int := ⌊q⌋
  let r : ℚ := q - f
  if r < 1/2 then f
  else if 1/2 < r then f + 1
  else if f % 2 = 0 then f else f + 1

/-- Numeric branch of format_excel_time: minutes = int(round(t * 24 * 60)),
then minutes div 60 and minutes mod 60 are formatted zero padded. -/
def formatNum (t : ℚ) : String :=
  let minutes : Int := roundHalfEven (t * 24 * 60)
  pad2i (minutes / 60) ++ ":" ++ pad2i (minutes % 60)

/-- The function format_excel_time: a missing cell stays missing, datetime
and time values are formatted as HH:MM from their clock fields, a numeric
value goes through the day-fraction conversion, any other value is parsed
as a datetime when possible and otherwise falls back to its literal string. -/
def formatExcelTime : RawCell → Option String
  | RawCell.null => none
  | RawCell.dt h m => some (pad2 h ++ ":" ++ pad2 m)
  | RawCell.tod h m => some (pad2 h ++ ":" ++ pad2 m)
  | RawCell.num q => some (formatNum q)
  | RawCell.txt (some p) _ => some (pad2 p.1 ++ ":" ++ pad2 p.2)
  | RawCell.txt none lit => some lit

/-- One raw spreadsheet row: the first four columns of a sheet, renamed
positionally to Timestamp, Quantity, Sensor1, Sensor2.  Numeric cells may
be missing. -/
structure RawRow where
  time : RawCell
  quantity : Option ℚ
  sensor1 : Option ℚ
  sensor2 : Option ℚ
deriving DecidableEq

/-- One sheet of the uploaded workbook: its name, how many columns the
raw table has, and its rows. -/
structure RawSheet where
  name : String
  ncols : Nat
  rows : List RawRow
deriving DecidableEq

/-- Row of one normalized sheet: timestamp column after applying
format_excel_time, untouched numeric columns, and the sheet tag. -/
structure NormRow where
  timestamp : Option String
  quantity : Option ℚ
  sensor1 : Option ℚ
  sensor2 : Option ℚ
  sheet : String
deriving DecidableEq

/-- Normalization of one sheet: apply format_excel_time to the timestamp
column and tag every row with the sheet name. -/
def normalizeSheet (s : RawSheet) : List NormRow :=
  s.rows.map fun r =>
    { timestamp := formatExcelTime r.time
      quantity := r.quantity
      sensor1 := r.sensor1
      sensor2 := r.sensor2
      sheet := s.name }

/-- Error message of the index error raised by df.columns[3] when the
sheet has fewer than four columns.  It does not mention the sheet name. -/
def ixMsg : String := "index 3 is out of bounds for axis 0"

/-- Loading one sheet: the positional rename reads df.columns[3], so a
sheet with fewer than four columns raises an index error; otherwise the
sheet is normalized. -/
def loadSheet (s : RawSheet) : Except String (List NormRow) :=
  if s.ncols < 4 then Except.error ixMsg else Except.ok (normalizeSheet s)

/-- Loading the selected sheets in order.  An exception raised while
loading one sheet propagates out of the for loop, so the first failing
sheet aborts the whole loading pass and later sheets are never loaded. -/
def loadSheets : List RawSheet → Except String (List (List NormRow))
  | [] => Except.ok []
  | s :: rest =>
    match loadSheet s with
    | Except.error e => Except.error e
    | Except.ok d =>
      match loadSheets rest with
      | Except.error e => Except.error e
      | Except.ok ds => Except.ok (d :: ds)

/-- Concatenation of the normalized sheets, as pd.concat does. -/
def combinedNorm : List RawSheet → List NormRow
  | [] => []
  | s :: rest => normalizeSheet s ++ combinedNorm rest

/-- The dropna step restricted to the Timestamp column: exactly the rows
whose normalized timestamp is missing are removed. -/
def combinedDropped (sheets : List RawSheet) : List NormRow :=
  (combinedNorm sheets).filter fun r => r.timestamp.isSome

/-- Row of the combined table after fillna(0): no value is missing. -/
structure FilledRow where
  timestamp : String
  quantity : ℚ
  sensor1 : ℚ
  sensor2 : ℚ
  sheet : String
deriving DecidableEq

/-- The fillna(0) step on one row: every remaining missing value is
replaced by zero.  The timestamp is never missing here because the rows
without a timestamp were dropped just before. -/
def fillRow (r : NormRow) : FilledRow :=
  { timestamp := r.timestamp.getD "0"
    quantity := r.quantity.getD 0
    sensor1 := r.sensor1.getD 0
    sensor2 := r.sensor2.getD 0
    sheet := r.sheet }

/-- Combined table after pd.concat, dropna on Timestamp, and fillna(0). -/
def combinedFilled (sheets : List RawSheet) : List FilledRow :=
  (combinedDropped sheets).map fillRow

/-- The per-unit ratio: Sensor over Quantity.replace(0, nan).  Dividing by
the replaced missing value yields a missing value, so a zero quantity
gives a missing ratio and a division by zero is never performed. -/
def perUnit (s q : ℚ) : Option ℚ :=
  if q = 0 then none else some (s / q)

/-- Row of the combined table together with its derived columns. -/
structure DerivedRow where
  timestamp : String
  sheet : String
  quantity : ℚ
  sensor1 : ℚ
  sensor2 : ℚ
  per1 : Option ℚ
  per2 : Option ℚ
  delta : ℚ
deriving DecidableEq

/-- Feature engineering on one filled row: the two per-unit ratios and
the inter-sensor delta Sensor1 - Sensor2. -/
def deriveRow (r : FilledRow) : DerivedRow :=
  { timestamp := r.timestamp
    sheet := r.sheet
    quantity := r.quantity
    sensor1 := r.sensor1
    sensor2 := r.sensor2
    per1 := perUnit r.sensor1 r.quantity
    per2 := perUnit r.sensor2 r.quantity
    delta := r.sensor1 - r.sensor2 }

/-- The combined table with all derived columns. -/
def combinedDerived (sheets : List RawSheet) : List DerivedRow :=
  (combinedFilled sheets).map deriveRow

/-- Number of raw rows over all selected sheets. -/
def totalRows : List RawSheet → Nat
  | [] => 0
  | s :: rest => s.rows.length + totalRows rest

/-- Number of raw rows whose timestamp cell is missing. -/
def countNullRows (rows : List RawRow) : Nat :=
  rows.countP fun r => decide (r.time = RawCell.null)

/-- Number of raw rows with a missing timestamp over all selected sheets. -/
def countNullSheets : List RawSheet → Nat
  | [] => 0
  | s :: rest => countNullRows s.rows + countNullSheets rest

/-- Mean of a list of rationals, missing on the empty list, as pandas mean. -/
def meanQ (l : List ℚ) : Option ℚ :=
  if l.length = 0 then none else some (l.sum / (l.length : ℚ))

/-- Sample variance (the pandas default, delta degrees of freedom one);
missing when fewer than two values are present. -/
def sampleVar (l : List ℚ) : Option ℚ :=
  if l.length < 2 then none
  else some ((l.map fun x => (x - l.sum / (l.length : ℚ)) ^ 2).sum / ((l.length : ℚ) - 1))

/-- Sample standard deviation, the square root of the sample variance. -/
noncomputable def stdR (l : List ℚ) : Option ℝ :=
  (sampleVar l).map fun v => Real.sqrt (v : ℝ)

/-- Rows of the combined table belonging to one sheet, the group formed by
groupby on the Sheet column. -/
def sheetRows (t : List DerivedRow) (name : String) : List DerivedRow :=
  t.filter fun r => decide (r.sheet = name)

/-- Values of the first per-unit column of a group; the std aggregation
skips missing values. -/
def per1Vals (rows : List DerivedRow) : List ℚ :=
  rows.filterMap fun r => r.per1

/-- Values of the second per-unit column of a group. -/
def per2Vals (rows : List DerivedRow) : List ℚ :=
  rows.filterMap fun r => r.per2

/-- Values of the Delta column of a group; Delta is never missing. -/
def deltaVals (rows : List DerivedRow) : List ℚ :=
  rows.map fun r => r.delta

/-- The three aggregates the SRI is built from: std of each per-unit
column and the mean of Delta over the rows of one sheet. -/
noncomputable def sriTerms (rows : List DerivedRow) : Option (ℝ × ℝ × ℚ) :=
  match stdR (per1Vals rows), stdR (per2Vals rows), meanQ (deltaVals rows) with
  | some a, some b, some m => some (a, b, m)
  | _, _, _ => none

/-- Sensor Reliability Index of a group of rows, exactly as the source
computes it: one minus a third of the sum of the two per-unit standard
deviations and the absolute mean delta. -/
noncomputable def SRI (rows : List DerivedRow) : Option ℝ :=
  (sriTerms rows).map fun p => 1 - (p.1 + p.2.1 + |(p.2.2 : ℝ)|) / 3

/-- SRI of one sheet of the combined table. -/
noncomputable def SRIof (t : List DerivedRow) (name : String) : Option ℝ :=
  SRI (sheetRows t name)

/-- The pandas shift of a series by an integer lag: a positive lag moves
values forward and fills the start with missing values, a negative lag
moves them backward and fills the end; length is preserved. -/
def shiftSeries (k : Int) (l : List (Option ℚ)) : List (Option ℚ) :=
  if 0 ≤ k then (List.replicate k.toNat none ++ l).take l.length
  else l.drop (-k).toNat ++ List.replicate (min (-k).toNat l.length) none

/-- Positions where both series have a value: the pairwise complete
observations used by the correlation. -/
def validPairs (a b : List (Option ℚ)) : List (ℚ × ℚ) :=
  (a.zip b).filterMap fun p =>
    match p.1, p.2 with
    | some x, some y => some (x, y)
    | _, _ => none

/-- Pearson correlation of two series as pandas Series.corr computes it:
over the pairwise complete observations, missing when fewer than two such
pairs exist or when either series is constant on them. -/
noncomputable def pearson (a b : List (Option ℚ)) : Option ℝ :=
  let p := validPairs a b
  let n : ℚ := (p.length : ℚ)
  if p.length < 2 then none
  else
    let mx := (p.map Prod.fst).sum / n
    let my := (p.map Prod.snd).sum / n
    let vx : ℚ := (p.map fun q => (q.1 - mx) ^ 2).sum
    let vy : ℚ := (p.map fun q => (q.2 - my) ^ 2).sum
    let cov : ℚ := (p.map fun q => (q.1 - mx) * (q.2 - my)).sum
    if vx = 0 ∨ vy = 0 then none
    else some ((cov : ℝ) / (Real.sqrt (vx : ℝ) * Real.sqrt (vy : ℝ)))

/-- The lagged cross-correlation list: for every lag from minus L to L in
increasing order, the correlation of the first series with the second
series shifted by that lag. -/
noncomputable def xcorrList (L : Nat) (a b : List (Option ℚ)) : List (Int × Option ℝ) :=
  (List.range (2 * L + 1)).map fun i : Nat =>
    ((i : Int) - (L : Int), pearson a (shiftSeries ((i : Int) - (L : Int)) b))

/-- Preparation of the two chosen columns before the cross-correlation:
drop the missing values of each, then truncate both to the shorter
length. -/
def prepSeries (s1 s2 : List (Option ℚ)) : List (Option ℚ) × List (Option ℚ) :=
  let a := s1.filterMap id
  let b := s2.filterMap id
  let m := min a.length b.length
  ((a.take m).map some, (b.take m).map some)

/-- The cross-correlation computation of the source: dropna, truncate to
the common length, then correlate at every lag in the symmetric range. -/
noncomputable def crossCorr (L : Nat) (s1 s2 : List (Option ℚ)) : List (Int × Option ℝ) :=
  xcorrList L (prepSeries s1 s2).1 (prepSeries s1 s2).2

/-- First difference of a column as Series.diff computes it over the
whole combined table: the first entry is missing, every later entry is
the value minus the previous value. -/
def diffQ : List ℚ → List (Option ℚ)
  | [] => []
  | x :: xs => none :: (xs.zip (x :: xs)).map fun p => some (p.1 - p.2)

/-- Rolling mean with window width W and a minimum number of observations:
at every index the window holds the last W entries up to that index, the
missing entries are skipped, and the mean is produced only when at least
the minimum number of observations is present. -/
def rollingMean (W minp : Nat) (l : List (Option ℚ)) : List (Option ℚ) :=
  (List.range l.length).map fun i =>
    let win := ((l.take (i + 1)).drop (i + 1 - W)).filterMap id
    if win.length < minp then none else some (win.sum / (win.length : ℚ))

/-- Rolling mean with min_periods=1, the partial-window variant. -/
def rollingPartial (W : Nat) (l : List (Option ℚ)) : List (Option ℚ) :=
  rollingMean W 1 l

/-- Rolling mean with the default min_periods equal to the window width,
the full-window variant. -/
def rollingFull (W : Nat) (l : List (Option ℚ)) : List (Option ℚ) :=
  rollingMean W W l

/-- Modelled from the spec: the Delta column as claim C4 words it, defined
only when both metric values are present in the input row and missing when
either is missing.  This is not what the source computes, because fillna
replaces the missing values with zero before Delta is computed. -/
def deltaSpec (s1 s2 : Option ℚ) : Option ℚ :=
  match s1, s2 with
  | some a, some b => some (a - b)
  | _, _ => none

/-- Concrete sheet used to evaluate the per-unit ratios: its only row has
quantity zero. -/
def sheetW2 : RawSheet :=
  { name := "Z", ncols := 4
    rows := [{ time := RawCell.tod 9 0, quantity := some 0, sensor1 := some 5, sensor2 := some 7 }] }

/-- The derived row the pipeline produces from sheetW2. -/
def rowW2 : DerivedRow :=
  { timestamp := "09:00", sheet := "Z", quantity := 0, sensor1 := 5, sensor2 := 7
    per1 := none, per2 := none, delta := 5 - 7 }

/-- Concrete sheet with one missing-timestamp row and one good row. -/
def sheetW3 : RawSheet :=
  { name := "A", ncols := 4
    rows := [{ time := RawCell.null, quantity := some 1, sensor1 := some 2, sensor2 := some 3 },
             { time := RawCell.tod 9 0, quantity := some 1, sensor1 := some 2, sensor2 := some 3 }] }

/-- The normalized row surviving the dropna step on sheetW3. -/
def rowW3 : NormRow :=
  { timestamp := some "09:00", quantity := some 1, sensor1 := some 2, sensor2 := some 3, sheet := "A" }

/-- Concrete sheet whose only row has a missing first metric value. -/
def sheetW4 : RawSheet :=
  { name := "S", ncols := 4
    rows := [{ time := RawCell.tod 9 0, quantity := some 1, sensor1 := none, sensor2 := some 5 }] }

/-- Concrete normalized row with both metric values present. -/
def rowW4 : NormRow :=
  { timestamp := some "09:00", quantity := some 1, sensor1 := some 3, sensor2 := some 5, sheet := "S" }

/-- Concrete normalized row with missing numeric values. -/
def rowW5 : NormRow :=
  { timestamp := some "09:00", quantity := none, sensor1 := none, sensor2 := some 4, sheet := "A" }

/-- A malformed sheet: only three columns. -/
def sheetBad : RawSheet :=
  { name := "Bad", ncols := 3
    rows := [{ time := RawCell.tod 9 0, quantity := some 1, sensor1 := some 2, sensor2 := some 3 }] }

/-- Another malformed sheet under a different name: only two columns. -/
def sheetBad2 : RawSheet := { name := "Other", ncols := 2, rows := [] }

/-- A well-formed sheet. -/
def sheetGood : RawSheet :=
  { name := "Good", ncols := 4
    rows := [{ time := RawCell.tod 9 5, quantity := some 2, sensor1 := some 3, sensor2 := some 4 }] }

/-- First sheet of the first-difference counterexample, a single row. -/
def sheetW7a : RawSheet :=
  { name := "A", ncols := 4
    rows := [{ time := RawCell.tod 9 0, quantity := some 1, sensor1 := some 10, sensor2 := some 0 }] }

/-- Second sheet of the first-difference counterexample, a single row. -/
def sheetW7b : RawSheet :=
  { name := "B", ncols := 4
    rows := [{ time := RawCell.tod 9 5, quantity := some 1, sensor1 := some 7, sensor2 := some 0 }] }

/-- Rows of sheet A in the SRI evaluation table. -/
def rowsA : List DerivedRow :=
  [{ timestamp := "09:00", sheet := "A", quantity := 1, sensor1 := 0, sensor2 := 0
     per1 := some 0, per2 := some 0, delta := 0 },
   { timestamp := "09:05", sheet := "A", quantity := 1, sensor1 := 2, sensor2 := 2
     per1 := some 2, per2 := some 2, delta := 0 }]

/-- Rows of sheet B in the SRI evaluation table: same per-unit dispersion
on the second sensor and the same mean delta as sheet A, but a larger
per-unit dispersion on the first sensor. -/
def rowsB : List DerivedRow :=
  [{ timestamp := "09:00", sheet := "B", quantity := 1, sensor1 := 0, sensor2 := 1
     per1 := some 0, per2 := some 1, delta := -1 },
   { timestamp := "09:05", sheet := "B", quantity := 1, sensor1 := 4, sensor2 := 3
     per1 := some 4, per2 := some 3, delta := 1 }]

/-- Combined table holding the two SRI evaluation sheets. -/
def tW8 : List DerivedRow := rowsA ++ rowsB

/-- First series of the cross-correlation evaluation. -/
def s1W : List (Option ℚ) := [some 1, some 2, some 3]

/-- Second series of the cross-correlation evaluation, with one missing
value. -/
def s2W : List (Option ℚ) := [some 1, none, some 5]

/-- Taking one more element than are dropped isolates a single element. -/
theorem take_succ_drop_self {α : Type} (l : List α) (i : Nat) (h : i < l.length) :
    (l.take (i + 1)).drop i = [l[i]] := by
  induction l generalizing i with
  | nil => simp at h
  | cons x xs ih =>
    cases i with
    | zero => simp
    | succ j =>
      simp only [List.take_succ_cons, List.drop_succ_cons, List.getElem_cons_succ]
      exact ih j (by simpa using h)

/-- Claim C9: for every numeric series, the rolling mean computed with
window width one equals the original series element-wise, for both the
partial-window variant with minimum periods one and the full-window
variant whose minimum periods equal the window width. -/
theorem rollingMean_one (l : List (Option ℚ)) :
    rollingPartial 1 l = l ∧ rollingFull 1 l = l := by
  have key : rollingMean 1 1 l = l := by
    apply List.ext_getElem
    · simp [rollingMean]
    · intro i h1 h2
      simp only [rollingMean, List.getElem_map, List.getElem_range]
      have hw : (l.take (i + 1)).drop (i + 1 - 1) = [l[i]] := by
        simpa using take_succ_drop_self l i h2
      rw [hw]
      cases hx : l[i] with
      | none => simp [List.filterMap]
      | some x => simp [List.filterMap]
  exact ⟨key, key⟩

/-- The rounding never goes below the floor. -/
theorem floor_le_roundHalfEven (q : ℚ) : ⌊q⌋ ≤ roundHalfEven q := by
  simp only [roundHalfEven]
  split_ifs <;> omega

/-- Claim C10: on a numeric timestamp input t the normalizer returns the
minutes value round(t * 24 * 60) formatted as zero-padded hour and minute
fields via integer division and remainder by sixty; the hour field is
never reduced modulo twenty-four, so an input of at least one whole day
yields an hour field of at least twenty-four, and the input one formats
as the string 24:00, which is not a valid wall-clock time of day. -/
theorem formatNum_claim (t : ℚ) :
    formatExcelTime (RawCell.num t)
      = some (pad2i (roundHalfEven (t * 24 * 60) / 60) ++ ":"
          ++ pad2i (roundHalfEven (t * 24 * 60) % 60))
    ∧ (1 ≤ t → 24 ≤ roundHalfEven (t * 24 * 60) / 60)
    ∧ formatExcelTime (RawCell.num 1) = some "24:00" := by
  have hday : formatExcelTime (RawCell.num 1) = some "24:00" := by
    have h0 : ((1 : ℚ) * 24 * 60) = (1440 : ℚ) := by norm_num
    have hm : roundHalfEven ((1 : ℚ) * 24 * 60) = 1440 := by
      rw [h0]
      simp only [roundHalfEven]
      norm_num
    show some (formatNum 1) = some "24:00"
    simp only [formatNum, hm]
    decide
  refine ⟨rfl, ?_, hday⟩
  intro ht
  have hfl : (1440 : Int) ≤ ⌊t * 24 * 60⌋ := by
    rw [Int.le_floor]
    push_cast
    nlinarith
  have := floor_le_roundHalfEven (t * 24 * 60)
  omega

/-- Witness for claim C10 at the concrete input two days. -/
theorem formatNum_claim_witness :
    (1 : ℚ) ≤ 2 ∧ 24 ≤ roundHalfEven ((2 : ℚ) * 24 * 60) / 60 :=
  ⟨by norm_num, (formatNum_claim 2).2.1 (by norm_num)⟩

/-- Shifting a series by lag zero changes nothing. -/
theorem shiftSeries_zero (l : List (Option ℚ)) : shiftSeries 0 l = l := by
  simp [shiftSeries]

/-- Claim C1: for every max lag L between one and one hundred and every
pair of series, after dropping the missing values and truncating both to
the shorter length, the lagged cross-correlation output has exactly
2L+1 entries, its lags are the integers from minus L to L in strictly
increasing order, and the entry at lag zero carries the zero-lag Pearson
correlation of the two truncated series. -/
theorem crossCorr_claim (L : Nat) (s1 s2 : List (Option ℚ)) (h1 : 1 ≤ L) (h2 : L ≤ 100) :
    (crossCorr L s1 s2).length = 2 * L + 1
    ∧ (crossCorr L s1 s2).map Prod.fst
        = (List.range (2 * L + 1)).map (fun i : Nat => (i : Int) - (L : Int))
    ∧ ((crossCorr L s1 s2).map Prod.fst).Pairwise (· < ·)
    ∧ (crossCorr L s1 s2).getD L (1, none)
        = (0, pearson (prepSeries s1 s2).1 (prepSeries s1 s2).2) := by
  have hmap : (crossCorr L s1 s2).map Prod.fst
      = (List.range (2 * L + 1)).map (fun i : Nat => (i : Int) - (L : Int)) := by
    simp only [crossCorr, xcorrList, List.map_map]
    rfl
  have hlen : (crossCorr L s1 s2).length = 2 * L + 1 := by
    have hc := congrArg List.length hmap
    simpa using hc
  refine ⟨hlen, hmap, ?_, ?_⟩
  · rw [hmap, List.pairwise_map]
    refine List.Pairwise.imp ?_ (List.pairwise_lt_range _)
    intro a b h
    show (a : Int) - (L : Int) < (b : Int) - (L : Int)
    omega
  · have hL : L < 2 * L + 1 := by omega
    simp only [crossCorr, xcorrList]
    rw [List.getD_eq_getD_get?, List.get?_map, List.get?_range hL]
    simp [shiftSeries_zero]

/-- Witness for claim C1 at max lag two and two concrete short series. -/
theorem crossCorr_claim_witness :
    (1 ≤ 2 ∧ 2 ≤ 100) ∧ (crossCorr 2 s1W s2W).length = 2 * 2 + 1 :=
  ⟨⟨by norm_num, by norm_num⟩, (crossCorr_claim 2 s1W s2W (by norm_num) (by norm_num)).1⟩

/-- The normalizer yields a missing timestamp exactly on a missing cell. -/
theorem formatExcelTime_eq_none (c : RawCell) :
    formatExcelTime c = none ↔ c = RawCell.null := by
  cases c with
  | txt p lit => cases p <;> simp [formatExcelTime]
  | _ => simp [formatExcelTime]

/-- Surviving and dropped rows of one sheet partition its raw rows. -/
theorem normalizeSheet_count (s : RawSheet) :
    ((normalizeSheet s).filter fun r => r.timestamp.isSome).length + countNullRows s.rows
      = s.rows.length := by
  unfold normalizeSheet countNullRows
  induction s.rows with
  | nil => simp
  | cons r rs ih =>
    by_cases h : r.time = RawCell.null
    · simp only [List.map_cons, List.filter_cons, List.countP_cons, List.length_cons, h]
      simp [formatExcelTime] at ih ⊢
      omega
    · have hs : (formatExcelTime r.time).isSome = true := by
        rcases ho : formatExcelTime r.time with _ | v
        · exact absurd ((formatExcelTime_eq_none r.time).mp ho) h
        · rfl
      have hd : decide (r.time = RawCell.null) = false := by simp [h]
      simp only [List.map_cons, List.filter_cons, List.countP_cons, hs, hd, List.length_cons]
      simp
      omega

/-- Surviving and dropped rows partition the concatenated input rows. -/
theorem combinedDropped_count (sheets : List RawSheet) :
    (combinedDropped sheets).length + countNullSheets sheets = totalRows sheets := by
  induction sheets with
  | nil => simp [combinedDropped, combinedNorm, countNullSheets, totalRows]
  | cons s rest ih =>
    have hs := normalizeSheet_count s
    simp only [combinedDropped, combinedNorm, countNullSheets, totalRows,
      List.filter_append, List.length_append] at *
    omega

/-- Claim C3: exactly the rows whose raw timestamp cell is missing are
excluded from the combined table, so its row count is the total input row
count minus the number of rows with a missing timestamp, and every row of
the combined table carries a present timestamp label. -/
theorem dropna_exact (sheets : List RawSheet) :
    (combinedDropped sheets).length = totalRows sheets - countNullSheets sheets
    ∧ ∀ r ∈ combinedDropped sheets, r.timestamp.isSome = true := by
  refine ⟨?_, ?_⟩
  · have := combinedDropped_count sheets
    omega
  · intro r hr
    exact (List.mem_filter.mp hr).2

/-- Witness for claim C3 on a sheet with one missing-timestamp row and
one surviving row. -/
theorem dropna_exact_witness :
    (combinedDropped [sheetW3]).length = totalRows [sheetW3] - countNullSheets [sheetW3]
    ∧ rowW3.timestamp.isSome = true :=
  ⟨(dropna_exact [sheetW3]).1, (dropna_exact [sheetW3]).2 rowW3 (by decide)⟩

/-- Claim C2: in every row of the combined table each per-unit ratio is
missing exactly when the quantity of that row is zero and is a finite
rational otherwise, never an infinity and never an exception; in
particular every per-unit ratio of a sheet whose quantity column is
all-zero is missing. -/
theorem perUnit_claim :
    (∀ (sheets : List RawSheet), ∀ r ∈ combinedDerived sheets,
        (r.per1 = none ↔ r.quantity = 0)
        ∧ (r.per2 = none ↔ r.quantity = 0)
        ∧ (r.quantity ≠ 0 →
            r.per1 = some (r.sensor1 / r.quantity) ∧ r.per2 = some (r.sensor2 / r.quantity)))
    ∧ (∀ (sheets : List RawSheet) (nm : String),
        (∀ x ∈ sheetRows (combinedDerived sheets) nm, x.quantity = 0) →
        ∀ x ∈ sheetRows (combinedDerived sheets) nm, x.per1 = none ∧ x.per2 = none) := by
  have h1 : ∀ (sheets : List RawSheet), ∀ r ∈ combinedDerived sheets,
      (r.per1 = none ↔ r.quantity = 0)
      ∧ (r.per2 = none ↔ r.quantity = 0)
      ∧ (r.quantity ≠ 0 →
          r.per1 = some (r.sensor1 / r.quantity) ∧ r.per2 = some (r.sensor2 / r.quantity)) := by
    intro sheets r hr
    rcases List.mem_map.mp hr with ⟨f, _, rfl⟩
    by_cases hq : f.quantity = 0 <;>
      simp [deriveRow, perUnit, hq]
  refine ⟨h1, ?_⟩
  intro sheets nm hz x hx
  have hx' : x ∈ combinedDerived sheets := (List.mem_filter.mp hx).1
  have hq := hz x hx
  rcases h1 sheets x hx' with ⟨hp1, hp2, _⟩
  exact ⟨hp1.mpr hq, hp2.mpr hq⟩

/-- Witness for claim C2 on the concrete sheet whose quantity is zero. -/
theorem perUnit_claim_witness :
    ((rowW2.per1 = none ↔ rowW2.quantity = 0) ∧ (rowW2.per1 = none ∧ rowW2.per2 = none)) := by
  have hall : combinedDerived [sheetW2] = [rowW2] := rfl
  have hsh : sheetRows (combinedDerived [sheetW2]) "Z" = [rowW2] := rfl
  have hmem : rowW2 ∈ combinedDerived [sheetW2] := by
    rw [hall]; exact List.mem_singleton_self _
  have hmem2 : rowW2 ∈ sheetRows (combinedDerived [sheetW2]) "Z" := by
    rw [hsh]; exact List.mem_singleton_self _
  have hz : ∀ x ∈ sheetRows (combinedDerived [sheetW2]) "Z", x.quantity = 0 := by
    intro x hx
    rw [hsh] at hx
    rw [List.mem_singleton.mp hx]
    rfl
  exact ⟨(perUnit_claim.1 [sheetW2] rowW2 hmem).1,
    perUnit_claim.2 [sheetW2] "Z" hz rowW2 hmem2⟩

/-- Claim C5: immediately after concatenation and the timestamp dropna,
the fillna step replaces every remaining missing value in every column by
zero, so the numeric columns of the combined table are total rational
values with missing readings mapped to zero and present readings kept,
and all derived columns are computed from those filled values. -/
theorem fillna_claim :
    (∀ sheets : List RawSheet,
        combinedFilled sheets = (combinedDropped sheets).map fillRow
        ∧ combinedDerived sheets = (combinedFilled sheets).map deriveRow)
    ∧ (∀ r : NormRow,
        (r.quantity = none → (fillRow r).quantity = 0)
        ∧ (r.sensor1 = none → (fillRow r).sensor1 = 0)
        ∧ (r.sensor2 = none → (fillRow r).sensor2 = 0)
        ∧ (∀ q, r.quantity = some q → (fillRow r).quantity = q)
        ∧ (∀ v, r.sensor1 = some v → (fillRow r).sensor1 = v)
        ∧ (∀ v, r.sensor2 = some v → (fillRow r).sensor2 = v)) := by
  refine ⟨fun sheets => ⟨rfl, rfl⟩, fun r => ?_⟩
  refine ⟨?_, ?_, ?_, ?_, ?_, ?_⟩ <;> first
    | (intro h; simp [fillRow, h])
    | (intro v h; simp [fillRow, h])

/-- Witness for claim C5 on a concrete row with two missing values. -/
theorem fillna_claim_witness :
    (fillRow rowW5).quantity = 0 ∧ (fillRow rowW5).sensor2 = 4 :=
  ⟨(fillna_claim.2 rowW5).1 rfl, (fillna_claim.2 rowW5).2.2.2.2.2 4 rfl⟩

/-- Counterexample to claim C4: the only input row of sheetW4 has a
missing first metric value, yet the Delta column of the combined table
holds the present value minus five, not a missing value, because fillna
replaced the missing reading with zero before Delta was computed; the
claimed behaviour would have produced a missing Delta. -/
theorem delta_claim_cex :
    (sheetW4.rows.map fun r => r.sensor1) = [none]
    ∧ ((combinedDerived [sheetW4]).map fun r => some r.delta) = [some ((0 : ℚ) - 5)]
    ∧ ((0 : ℚ) - 5 = -5)
    ∧ deltaSpec none (some 5) = none :=
  ⟨rfl, rfl, by norm_num, rfl⟩

/-- Claim C4 amended: the Delta column is computed after the fillna step,
so it equals the first metric minus the second metric with a missing
input reading treated as zero; when both metric values are present in
the input row it equals their difference, and it is never missing. -/
theorem delta_filled :
    (∀ sheets : List RawSheet,
        combinedDerived sheets = (combinedDropped sheets).map fun r => deriveRow (fillRow r))
    ∧ (∀ r : NormRow,
        (deriveRow (fillRow r)).delta = r.sensor1.getD 0 - r.sensor2.getD 0
        ∧ ∀ a b, r.sensor1 = some a → r.sensor2 = some b →
            (deriveRow (fillRow r)).delta = a - b) := by
  constructor
  · intro sheets
    simp only [combinedDerived, combinedFilled, List.map_map]
    rfl
  · intro r
    refine ⟨rfl, ?_⟩
    intro a b ha hb
    simp [deriveRow, fillRow, ha, hb]

/-- Witness for the amended claim C4 on a row with both metrics present. -/
theorem delta_filled_witness :
    (deriveRow (fillRow rowW4)).delta = 3 - 5 :=
  (delta_filled.2 rowW4).2 3 5 rfl rfl

/-- An error produced by the loading pass is always the index message. -/
theorem loadSheets_error_eq (sheets : List RawSheet) :
    ∀ e, loadSheets sheets = Except.error e → e = ixMsg := by
  induction sheets with
  | nil =>
    intro e h
    simp [loadSheets] at h
  | cons s rest ih =>
    intro e h
    by_cases hs : s.ncols < 4
    · simp [loadSheets, loadSheet, hs] at h
      exact h.symm
    · simp only [loadSheets, loadSheet, hs, if_false] at h
      rcases hrest : loadSheets rest with e' | ds
      · rw [hrest] at h
        simp only [Except.error.injEq] at h
        exact h ▸ ih e' hrest
      · rw [hrest] at h
        simp at h

/-- Counterexample to claim C6: with a malformed first sheet the whole
loading pass fails with the index message, a message that is identical
for differently named malformed sheets and so does not carry the sheet
name, and the well-formed second sheet, which loads fine on its own, is
not loaded at all. -/
theorem load_claim_cex :
    loadSheets [sheetBad, sheetGood] = Except.error ixMsg
    ∧ loadSheets [sheetBad2, sheetGood] = Except.error ixMsg
    ∧ loadSheets [sheetGood] = Except.ok [normalizeSheet sheetGood] :=
  ⟨rfl, rfl, rfl⟩

/-- Claim C6 amended: a selected sheet with fewer than four columns makes
the whole loading pass fail with an index error that does not name the
sheet, aborting the loading loop, so no sheet at all is joined into the
combined table and the remaining selected sheets are not loaded; the
loading pass succeeds, loading every selected sheet, exactly when every
selected sheet has at least four columns. -/
theorem load_malformed (sheets : List RawSheet) :
    (loadSheets sheets = Except.error ixMsg ↔ ∃ s ∈ sheets, s.ncols < 4)
    ∧ (∀ out, loadSheets sheets = Except.ok out → out.length = sheets.length) := by
  induction sheets with
  | nil =>
    refine ⟨by simp [loadSheets], ?_⟩
    intro out h
    simp [loadSheets] at h
    simp [← h]
  | cons s rest ih =>
    by_cases hs : s.ncols < 4
    · refine ⟨?_, ?_⟩
      · simp [loadSheets, loadSheet, hs]
      · intro out h
        simp [loadSheets, loadSheet, hs] at h
    · rcases hrest : loadSheets rest with e | ds
      · have he : e = ixMsg := loadSheets_error_eq rest e hrest
        subst he
        refine ⟨?_, ?_⟩
        · simp only [loadSheets, loadSheet, hs, if_false, hrest]
          constructor
          · intro _
            rcases ih.1.mp hrest with ⟨x, hx, hx4⟩
            exact ⟨x, List.mem_cons_of_mem s hx, hx4⟩
          · intro _
            trivial
        · intro out h
          simp only [loadSheets, loadSheet, hs, if_false, hrest] at h
          exact Except.noConfusion h
      · refine ⟨?_, ?_⟩
        · simp only [loadSheets, loadSheet, hs, if_false, hrest]
          constructor
          · intro h
            simp at h
          · rintro ⟨x, hx, hx4⟩
            rcases List.mem_cons.mp hx with rfl | hx'
            · exact absurd hx4 hs
            · exact absurd (ih.1.mpr ⟨x, hx', hx4⟩) (by simp [hrest])
        · intro out h
          simp only [loadSheets, loadSheet, hs, if_false, hrest] at h
          injection h with h'
          rw [← h']
          simp [ih.2 ds hrest]

/-- Witness for the amended claim C6: a singleton malformed selection
fails with the index message, and a singleton well-formed selection loads
its one sheet. -/
theorem load_malformed_witness :
    loadSheets [sheetBad2] = Except.error ixMsg
    ∧ ([normalizeSheet sheetGood] : List (List NormRow)).length = [sheetGood].length :=
  ⟨(load_malformed [sheetBad2]).1.mpr ⟨sheetBad2, by simp, by norm_num [sheetBad2]⟩,
   (load_malformed [sheetGood]).2 [normalizeSheet sheetGood] rfl⟩

/-- Counterexample to claim C7: concatenating two one-row sheets, the
combined table has the sheet A row followed by the sheet B row, and the
first difference of the Sensor1 column gives the sheet B row, the first
row of the second sheet group, the value seven minus ten rather than a
missing value: the difference is taken across the sheet boundary. -/
theorem diff_claim_cex :
    ((combinedDerived [sheetW7a, sheetW7b]).map fun r => r.sheet) = ["A", "B"]
    ∧ diffQ ((combinedDerived [sheetW7a, sheetW7b]).map fun r => r.sensor1)
        = [none, some ((7 : ℚ) - 10)]
    ∧ ((7 : ℚ) - 10 = -3) :=
  ⟨rfl, rfl, by norm_num⟩

/-- Element access of the zipped difference list. -/
theorem zip_sub_getD (ys zs : List ℚ) :
    ∀ i, i < ys.length → i < zs.length →
      ((ys.zip zs).map fun p => some (p.1 - p.2)).getD i none
        = some (ys.getD i 0 - zs.getD i 0) := by
  induction ys generalizing zs with
  | nil => intro i h1 _; simp at h1
  | cons y ys ih =>
    intro i h1 h2
    cases zs with
    | nil => simp at h2
    | cons z zs =>
      cases i with
      | zero => rfl
      | succ j =>
        simp only [List.zip_cons_cons, List.map_cons, List.getD_cons_succ]
        exact ih zs j (by simpa using h1) (by simpa using h2)

/-- Claim C7 amended: the first-difference column is computed over the
whole combined table ordering, not per sheet group: only the very first
row of the combined table is missing, and every later entry is the value
minus the immediately preceding value, even across a sheet boundary. -/
theorem diff_global (l : List ℚ) :
    (diffQ l).length = l.length
    ∧ (l ≠ [] → (diffQ l).getD 0 (some 0) = none)
    ∧ (∀ i, 1 ≤ i → i < l.length →
        (diffQ l).getD i none = some (l.getD i 0 - l.getD (i - 1) 0)) := by
  cases l with
  | nil =>
    refine ⟨rfl, fun h => absurd rfl h, ?_⟩
    intro i _ h2
    simp at h2
  | cons x xs =>
    refine ⟨?_, fun _ => rfl, ?_⟩
    · simp [diffQ]
    · intro i h1 h2
      cases i with
      | zero => omega
      | succ j =>
        have hj : j < xs.length := by simpa using h2
        simp only [diffQ, List.getD_cons_succ]
        rw [zip_sub_getD xs (x :: xs) j hj (by simp; omega)]
        simp

/-- Witness for the amended claim C7 on a concrete three-value column. -/
theorem diff_global_witness :
    (diffQ [(10 : ℚ), 7, 4]).getD 1 none
      = some (([(10 : ℚ), 7, 4].getD 1 0) - ([(10 : ℚ), 7, 4].getD 0 0)) :=
  (diff_global [(10 : ℚ), 7, 4]).2.2 1 (by norm_num) (by norm_num)

/-- Claim C8: whenever the three aggregates of one sheet are defined, the
computed SRI equals one minus a third of the sum of the two per-unit
standard deviations and the absolute mean delta over that sheet group,
and it is strictly decreasing in each of the three terms: raising either
per-unit standard deviation, or the absolute mean delta, while the other
two terms stay fixed, strictly lowers the SRI. -/
theorem sri_claim :
    (∀ (t : List DerivedRow) (nm : String) (a b : ℝ) (m : ℚ),
        sriTerms (sheetRows t nm) = some (a, b, m) →
        SRIof t nm = some (1 - (a + b + |(m : ℝ)|) / 3))
    ∧ (∀ (t t' : List DerivedRow) (nm nm' : String) (a a' b : ℝ) (m : ℚ) (x y : ℝ),
        sriTerms (sheetRows t nm) = some (a, b, m) →
        sriTerms (sheetRows t' nm') = some (a', b, m) →
        a < a' → SRIof t nm = some x → SRIof t' nm' = some y → y < x)
    ∧ (∀ (t t' : List DerivedRow) (nm nm' : String) (a b b' : ℝ) (m : ℚ) (x y : ℝ),
        sriTerms (sheetRows t nm) = some (a, b, m) →
        sriTerms (sheetRows t' nm') = some (a, b', m) →
        b < b' → SRIof t nm = some x → SRIof t' nm' = some y → y < x)
    ∧ (∀ (t t' : List DerivedRow) (nm nm' : String) (a b : ℝ) (m m' : ℚ) (x y : ℝ),
        sriTerms (sheetRows t nm) = some (a, b, m) →
        sriTerms (sheetRows t' nm') = some (a, b, m') →
        |m| < |m'| → SRIof t nm = some x → SRIof t' nm' = some y → y < x) := by
  have hform : ∀ (t : List DerivedRow) (nm : String) (a b : ℝ) (m : ℚ),
      sriTerms (sheetRows t nm) = some (a, b, m) →
      SRIof t nm = some (1 - (a + b + |(m : ℝ)|) / 3) := by
    intro t nm a b m h
    simp [SRIof, SRI, h]
  refine ⟨hform, ?_, ?_, ?_⟩
  · intro t t' nm nm' a a' b m x y h1 h2 hlt hx hy
    have ex : 1 - (a + b + |(m : ℝ)|) / 3 = x :=
      Option.some.inj ((hform t nm a b m h1).symm.trans hx)
    have ey : 1 - (a' + b + |(m : ℝ)|) / 3 = y :=
      Option.some.inj ((hform t' nm' a' b m h2).symm.trans hy)
    linarith
  · intro t t' nm nm' a b b' m x y h1 h2 hlt hx hy
    have ex : 1 - (a + b + |(m : ℝ)|) / 3 = x :=
      Option.some.inj ((hform t nm a b m h1).symm.trans hx)
    have ey : 1 - (a + b' + |(m : ℝ)|) / 3 = y :=
      Option.some.inj ((hform t' nm' a b' m h2).symm.trans hy)
    linarith
  · intro t t' nm nm' a b m m' x y h1 h2 hlt hx hy
    have ex : 1 - (a + b + |(m : ℝ)|) / 3 = x :=
      Option.some.inj ((hform t nm a b m h1).symm.trans hx)
    have ey : 1 - (a + b + |(m' : ℝ)|) / 3 = y :=
      Option.some.inj ((hform t' nm' a b m' h2).symm.trans hy)
    have hc : |(m : ℝ)| < |(m' : ℝ)| := by
      rw [← Rat.cast_abs, ← Rat.cast_abs]
      exact_mod_cast hlt
    linarith

/-- Witness for claim C8 on the two concrete sheet groups of tW8: sheet B
has the same second per-unit dispersion and the same mean delta as sheet
A but a larger first per-unit dispersion, and its SRI is strictly
smaller. -/
theorem sri_claim_witness :
    1 - (Real.sqrt 8 + Real.sqrt 2 + |((0 : ℚ) : ℝ)|) / 3
      < 1 - (Real.sqrt 2 + Real.sqrt 2 + |((0 : ℚ) : ℝ)|) / 3 := by
  have hv2 : sampleVar [(0 : ℚ), 2] = some 2 := by norm_num [sampleVar]
  have hv8 : sampleVar [(0 : ℚ), 4] = some 8 := by norm_num [sampleVar]
  have hv2b : sampleVar [(1 : ℚ), 3] = some 2 := by norm_num [sampleVar]
  have hs2 : stdR [(0 : ℚ), 2] = some (Real.sqrt 2) := by
    unfold stdR; rw [hv2]; norm_num
  have hs8 : stdR [(0 : ℚ), 4] = some (Real.sqrt 8) := by
    unfold stdR; rw [hv8]; norm_num
  have hs2b : stdR [(1 : ℚ), 3] = some (Real.sqrt 2) := by
    unfold stdR; rw [hv2b]; norm_num
  have hm0 : meanQ [(0 : ℚ), 0] = some 0 := by norm_num [meanQ]
  have hm0b : meanQ [(-1 : ℚ), 1] = some 0 := by norm_num [meanQ]
  have hTA : sriTerms (sheetRows tW8 "A") = some (Real.sqrt 2, Real.sqrt 2, 0) := by
    have e1 : per1Vals (sheetRows tW8 "A") = [(0 : ℚ), 2] := rfl
    have e2 : per2Vals (sheetRows tW8 "A") = [(0 : ℚ), 2] := rfl
    have e3 : deltaVals (sheetRows tW8 "A") = [(0 : ℚ), 0] := rfl
    unfold sriTerms
    rw [e1, e2, e3, hs2, hm0]
  have hTB : sriTerms (sheetRows tW8 "B") = some (Real.sqrt 8, Real.sqrt 2, 0) := by
    have e1 : per1Vals (sheetRows tW8 "B") = [(0 : ℚ), 4] := rfl
    have e2 : per2Vals (sheetRows tW8 "B") = [(1 : ℚ), 3] := rfl
    have e3 : deltaVals (sheetRows tW8 "B") = [(-1 : ℚ), 1] := rfl
    unfold sriTerms
    rw [e1, e2, e3, hs8, hs2b, hm0b]
  have hxA := sri_claim.1 tW8 "A" (Real.sqrt 2) (Real.sqrt 2) 0 hTA
  have hxB := sri_claim.1 tW8 "B" (Real.sqrt 8) (Real.sqrt 2) 0 hTB
  exact sri_claim.2.1 tW8 tW8 "A" "B" (Real.sqrt 2) (Real.sqrt 8) (Real.sqrt 2) 0 _ _
    hTA hTB (Real.sqrt_lt_sqrt (by norm_num) (by norm_num)) hxA hxB

end Dashboard
